import Mathlib

/-!
Verification of the Sphinx extension `doc/sphinxext/altair_ext/altairplot.py`.

The development shallowly embeds the extension's data model and operations:
the two directives (`altair-plot-setup`, `altair-plot`), the purge hook, the
HTML visitor (execution and emission) and the generic fallback visitor.
Python code execution (`exec`, `exec_then_eval`, `chart.to_dict`) is modelled
by an abstract interpreter record, since its behaviour is external to the
extension itself; the host framework's path utilities and serial-number
counter are modelled from their documented behaviour.
-/

namespace AltairPlot

/-- Render-time descriptor attached to an `altair_plot` docutils node by
`AltairPlotDirective.run` (the attributes set on `plot_node`). -/
structure PlotNode where
  target_id : String
  div_id : String
  code : String
  setupcode : String
  relpath : String
  rst_source : String
  rst_lineno : Nat
  alt : Option String
deriving DecidableEq

/-- Docutils nodes produced by the two directives: anchor targets (docutils
`nodes.target('', '', ids=[...])`), source-echo literal blocks, and the
custom `altair_plot` node. -/
inductive Node where
  | target (text : String) (ids : List String)
  | literal_block (text : String) (language : String)
  | altair_plot (p : PlotNode)
deriving DecidableEq

/-- One element of `env.altair_plot_setup`, as appended by
`AltairPlotSetupDirective.run`. -/
structure SetupEntry where
  docname : String
  lineno : Nat
  code : String
  target : Node
deriving DecidableEq

/-- The slice of the Sphinx build environment the extension touches:
the current document name, the source directory, the serial-number counter
behind `env.new_serialno`, and the `altair_plot_setup` attribute
(`none` models the attribute being absent, i.e. `hasattr` false). -/
structure BuildEnv where
  docname : String
  srcdir : String
  serialno : Nat
  altair_plot_setup : Option (List SetupEntry)
deriving DecidableEq

/-- Modelled from the spec: `env.new_serialno('altair-plot')` is an external
host-framework API; the spec describes it as a monotonically increasing
per-build sequence number, so it returns the current counter value and
increments it. -/
def new_serialno (env : BuildEnv) : Nat × BuildEnv :=
  (env.serialno, { env with serialno := env.serialno + 1 })

/-- Modelled from the spec: `os.path.basename`, an external path utility. -/
def os_path_basename (p : String) : String :=
  (p.splitOn "/").getLastD ""

/-- Modelled from the spec: `os.path.dirname`, an external path utility. -/
def os_path_dirname (p : String) : String :=
  String.intercalate "/" (p.splitOn "/").dropLast

/-- Modelled from the spec: `os.path.join` for the relative-path uses the
extension makes of it. -/
def os_path_join (a b : String) : String :=
  if a = "" then b else a ++ "/" ++ b

/-- Modelled from the spec: `os.path.relpath`, an external path utility. -/
def os_path_relpath (path start : String) : String :=
  if path = start then "."
  else if path.startsWith (start ++ "/") then path.drop (start.length + 1)
  else path

/-- Embedding of `AltairPlotSetupDirective.run`: mint a target id from the
serial counter, build an empty target node, join the content lines into the
setup code, append a `SetupEntry` to `env.altair_plot_setup` (creating the
attribute when absent), and return the single target node. -/
def AltairPlotSetupDirective_run (env : BuildEnv) (lineno : Nat)
    (content : List String) : BuildEnv × List Node :=
  let sn := new_serialno env
  let targetid := "altair-plot-" ++ Nat.repr sn.1
  let targetnode := Node.target "" [targetid]
  let code := String.intercalate "\n" content
  let entries := sn.2.altair_plot_setup.getD []
  let entry : SetupEntry :=
    { docname := sn.2.docname, lineno := lineno, code := code,
      target := targetnode }
  let env2 := { sn.2 with altair_plot_setup := some (entries ++ [entry]) }
  (env2, [targetnode])

/-- Embedding of `purge_altair_plot_setup`: when the attribute is absent,
return immediately; otherwise keep exactly the entries whose `docname`
differs from the purged document. -/
def purge_altair_plot_setup (env : BuildEnv) (docname : String) : BuildEnv :=
  match env.altair_plot_setup with
  | none => env
  | some items =>
    { env with altair_plot_setup := some (items.filter (fun item => item.docname ≠ docname)) }

/-- Options of the `altair-plot` directive: two flags and optional alt text. -/
structure PlotOptions where
  hide_code : Bool
  code_below : Bool
  alt : Option String
deriving DecidableEq

/-- Shape of `"{0}-altair-plot-{1}".format(rst_base, serialno)`. -/
def mk_div_id (rst_base : String) (serialno : Nat) : String :=
  rst_base ++ "-altair-plot-" ++ Nat.repr serialno

/-- Shape of `"{0}-altair-source-{1}".format(rst_base, serialno)`. -/
def mk_target_id (rst_base : String) (serialno : Nat) : String :=
  rst_base ++ "-altair-source-" ++ Nat.repr serialno

/-- Embedding of `AltairPlotDirective.run`: gather the setup code of the
current document, join the body into the plot code, mint the id pair from
the source file name and the serial counter, build the plot node, and emit
the node list in the order dictated by `code-below` and `hide-code`. -/
def AltairPlotDirective_run (env : BuildEnv) (opts : PlotOptions)
    (content : List String) (rst_source : String) (lineno : Nat) :
    BuildEnv × List Node :=
  let show_code := !opts.hide_code
  let code_below := opts.code_below
  let setupcode := String.intercalate "\n"
    (((env.altair_plot_setup.getD []).filter
        (fun item => item.docname = env.docname)).map (fun item => item.code))
  let code := String.intercalate "\n" content
  let source_literal := Node.literal_block code "python"
  let rst_dir := os_path_dirname rst_source
  let rst_filename := os_path_basename rst_source
  let sn := new_serialno env
  let rst_base := rst_filename.replace "." "-"
  let div_id := mk_div_id rst_base sn.1
  let target_id := mk_target_id rst_base sn.1
  let target_node := Node.target "" [target_id]
  let plot_node : PlotNode :=
    { target_id := target_id, div_id := div_id, code := code,
      setupcode := setupcode,
      relpath := os_path_relpath rst_dir env.srcdir,
      rst_source := rst_source, rst_lineno := lineno, alt := opts.alt }
  let result := [target_node]
    ++ (if code_below then [Node.altair_plot plot_node] else [])
    ++ (if show_code then [source_literal] else [])
    ++ (if !code_below then [Node.altair_plot plot_node] else [])
  (sn.2, result)

/-- JSON values, the codomain of `chart.to_dict()` and the payload of
`json.dumps`. Object fields keep insertion order, as Python dicts do. -/
inductive JValue where
  | bool (b : Bool)
  | num (n : Int)
  | str (s : String)
  | arr (xs : List JValue)
  | obj (fields : List (String × JValue))

/-- JSON string literal with the escapes `json.dumps` always applies. -/
def jstring (s : String) : String :=
  "\"" ++ ((s.replace "\\" "\\\\").replace "\"" "\\\"") ++ "\""

mutual
/-- Embedding of `json.dumps` with its default separators. -/
def dumps : JValue → String
  | .bool true => "true"
  | .bool false => "false"
  | .num n => toString n
  | .str s => jstring s
  | .arr xs => "[" ++ String.intercalate ", " (dumps_list xs) ++ "]"
  | .obj fields => "\x7b" ++ String.intercalate ", " (dumps_fields fields) ++ "\x7d"

/-- Serialisations of the elements of a JSON array. -/
def dumps_list : List JValue → List String
  | [] => []
  | x :: xs => dumps x :: dumps_list xs

/-- Serialisations of the fields of a JSON object. -/
def dumps_fields : List (String × JValue) → List String
  | [] => []
  | (k, v) :: fields => (jstring k ++ ": " ++ dumps v) :: dumps_fields fields
end

/-- Abstract interpreter for the Python code the extension executes.
`exec_code` models the builtin `exec(code, globals, locals)` acting on an
evaluation context, `exec_then_eval` models the helper of the same name from
`utils.py` (execute all statements but the last, then evaluate the last as an
expression), and `to_dict` models `chart.to_dict()`. Each step either
returns a value or raises (`Except.error`); the extension never catches
these errors. `empty_ctx` is the context made of a fresh pair of empty
dictionaries. -/
structure PyExec where
  Ctx : Type
  PyValue : Type
  empty_ctx : Ctx
  exec_code : String → Ctx → Except String Ctx
  exec_then_eval : String → Ctx → Except String PyValue
  to_dict : PyValue → Except String JValue

/-- State of the HTML builder visible to the visitors: the output body (a
list of appended fragments) and the write log of artifact files (a path,
content pair per `open(path, 'w')` write; the current content of a path is
its last write). -/
structure BuilderState where
  body : List String
  files : List (String × String)
deriving DecidableEq

/-- Content of the file at `path`: the last write to that path, if any. -/
def file_content (files : List (String × String)) (path : String) :
    Option String :=
  ((files.filter (fun kv => kv.1 = path)).getLast?).map (fun kv => kv.2)

/-- Visitor outcome signal: `raise nodes.SkipNode`. -/
inductive VisitSignal where
  | skipNode
deriving DecidableEq

/-- Rendered `VGL_TEMPLATE` with `div_id` and `filename` substituted. -/
def vgl_render (div_id filename : String) : String :=
  "\n<div id=\"" ++ div_id ++ "\">\n"
  ++ "<script src=\"https://d3js.org/d3.v3.min.js\"></script>\n"
  ++ "<script src=\"https://vega.github.io/vega/vega.js\"></script>\n"
  ++ "<script src=\"https://vega.github.io/vega-lite/vega-lite.js\"></script>\n"
  ++ "<script src=\"https://vega.github.io/vega-editor/vendor/vega-embed.js\" charset=\"utf-8\"></script>\n"
  ++ "<script>\n"
  ++ "  vg.embed(\"#" ++ div_id ++ "\", \"" ++ filename ++ "\", function(error, result) \x7b\x7d);\n"
  ++ "</script>\n"
  ++ "</div>\n"

/-- The envelope object built around the chart spec before serialisation. -/
def embed_envelope (spec : JValue) : JValue :=
  JValue.obj
    [("mode", JValue.str "vega-lite"),
     ("actions", JValue.obj
        [("editor", JValue.bool true),
         ("source", JValue.bool false),
         ("export", JValue.bool true)]),
     ("spec", spec)]

/-- Setup step of the HTML visitor: `_globals, _locals = \x7b\x7d, \x7b\x7d`
followed by `exec(node['setupcode'], ...)` when the setup code is non-empty
(Python truthiness of the string). -/
def setup_result (I : PyExec) (node : PlotNode) : Except String I.Ctx :=
  if node.setupcode ≠ "" then I.exec_code node.setupcode I.empty_ctx
  else pure I.empty_ctx

/-- Embedding of `html_visit_altair_plot`: execute the setup code in a fresh
context when non-empty, execute the plot code evaluating its last line,
convert the chart to a spec dict, serialise the envelope, write it to
`<outdir>/<relpath>/<div_id>.vl.json`, append the rendered template to the
builder body, and raise `SkipNode`. Any error escapes uncaught. -/
def html_visit_altair_plot (I : PyExec) (outdir : String)
    (st : BuilderState) (node : PlotNode) :
    Except String (BuilderState × VisitSignal) := do
  let ctx1 ← setup_result I node
  let chart ← I.exec_then_eval node.code ctx1
  let spec ← I.to_dict chart
  let embed_spec := dumps (embed_envelope spec)
  let dest_dir := os_path_join outdir node.relpath
  let filename := node.div_id ++ ".vl.json"
  let dest_path := os_path_join dest_dir filename
  let files2 := st.files ++ [(dest_path, embed_spec)]
  let html := vgl_render node.div_id filename
  pure ({ body := st.body ++ [html], files := files2 }, VisitSignal.skipNode)

/-- Embedding of `generic_visit_altair_plot`: append a textual placeholder
(built from the alt text when present) and raise `SkipNode`; no code is
executed and no file is written. -/
def generic_visit_altair_plot (st : BuilderState) (node : PlotNode) :
    BuilderState × VisitSignal :=
  let text := match node.alt with
    | some a => "[ graph: " ++ a ++ " ]"
    | none => "[ graph ]"
  ({ st with body := st.body ++ [text] }, VisitSignal.skipNode)

/-- Parse-phase events of one build: each directive occurrence, tagged with
the document being read (the host sets `env.docname` before running the
directives of a document). -/
inductive Event where
  | setupEv (docname : String) (lineno : Nat) (content : List String)
  | plotEv (docname : String) (opts : PlotOptions) (content : List String)
      (rst_source : String) (lineno : Nat)

/-- Run one directive occurrence against the build environment. -/
def run_event (env : BuildEnv) : Event → BuildEnv × List Node
  | .setupEv d l c => AltairPlotSetupDirective_run { env with docname := d } l c
  | .plotEv d o c src l =>
      AltairPlotDirective_run { env with docname := d } o c src l

/-- Run a whole parse phase, collecting every emitted node in order. -/
def run_build (env : BuildEnv) : List Event → BuildEnv × List Node
  | [] => (env, [])
  | e :: evs =>
    let r1 := run_event env e
    let r2 := run_build r1.1 evs
    (r2.1, r1.2 ++ r2.2)

/-- The plot descriptors among a list of emitted nodes. -/
def plot_nodes (ns : List Node) : List PlotNode :=
  ns.filterMap (fun n => match n with
    | .altair_plot p => some p
    | _ => none)

/-- Setup code registered during `evs` for document `d`: one string per
setup directive, in registration order, with no deduplication. -/
def setup_codes_for (d : String) (evs : List Event) : List String :=
  evs.filterMap (fun e => match e with
    | .setupEv d2 _ c =>
        if d2 = d then some (String.intercalate "\n" c) else none
    | _ => none)

/-- Formalisation following the spec's words, for comparison with the code:
the ordered concatenation of all Setup Entries registered for document `d`
during the build. Per the spec's phase model the whole parse phase precedes
every render, so these are exactly the entries registered before any plot
block's render. -/
def spec_setup_concat (d : String) (evs : List Event) : String :=
  String.intercalate "\n" (setup_codes_for d evs)

/-- Code strings of the registry entries owned by document `d`. -/
def registry_codes (d : String) (env : BuildEnv) : List String :=
  ((env.altair_plot_setup.getD []).filter
    (fun item => item.docname = d)).map (fun item => item.code)

/-- Concrete interpreter used by witnesses: the only setup statement it
understands is `x = 5` and the only plot expression is `chart(x)`, whose
chart converts to the spec `\x7b"data": x\x7d`. -/
def exec0 : PyExec where
  Ctx := List (String × Int)
  PyValue := Int
  empty_ctx := []
  exec_code := fun code ctx =>
    if code = "x = 5" then Except.ok (("x", (5 : Int)) :: ctx)
    else Except.error ("NameError in " ++ code)
  exec_then_eval := fun code ctx =>
    if code = "chart(x)" then
      match ctx.lookup "x" with
      | some v => Except.ok v
      | none => Except.error "NameError: name x is not defined"
    else Except.error ("SyntaxError in " ++ code)
  to_dict := fun v => Except.ok (JValue.obj [("data", JValue.num v)])

/-- Interpreter whose setup execution always raises. -/
def exec_setup_raises : PyExec where
  Ctx := Unit
  PyValue := Unit
  empty_ctx := ()
  exec_code := fun _ _ => Except.error "boom-setup"
  exec_then_eval := fun _ _ => Except.ok ()
  to_dict := fun _ => Except.ok (JValue.bool true)

/-- Interpreter whose plot-code evaluation always raises. -/
def exec_eval_raises : PyExec where
  Ctx := Unit
  PyValue := Unit
  empty_ctx := ()
  exec_code := fun _ _ => Except.ok ()
  exec_then_eval := fun _ _ => Except.error "boom-eval"
  to_dict := fun _ => Except.ok (JValue.bool true)

/-- Interpreter whose chart value lacks the spec-conversion capability. -/
def exec_todict_raises : PyExec where
  Ctx := Unit
  PyValue := Unit
  empty_ctx := ()
  exec_code := fun _ _ => Except.ok ()
  exec_then_eval := fun _ _ => Except.ok ()
  to_dict := fun _ => Except.error "boom-todict"

/-- Concrete plot descriptor used by witnesses. -/
def node0 : PlotNode where
  target_id := "index-rst-altair-source-0"
  div_id := "index-rst-altair-plot-0"
  code := "chart(x)"
  setupcode := "x = 5"
  relpath := "."
  rst_source := "/src/index.rst"
  rst_lineno := 10
  alt := none

/-- The witness descriptor with alt text set. -/
def node_alt : PlotNode := { node0 with alt := some "desc" }

/-- Empty builder state. -/
def stA : BuilderState where
  body := []
  files := []

/-- Builder state that has already rendered other material. -/
def stB : BuilderState where
  body := ["<p>earlier</p>"]
  files := [("out/./other.vl.json", "old")]

/-- Fresh build environment used by witnesses. -/
def env00 : BuildEnv where
  docname := ""
  srcdir := "/src"
  serialno := 0
  altair_plot_setup := none

/-- Default options: both flags unset, no alt text. -/
def opts00 : PlotOptions where
  hide_code := false
  code_below := false
  alt := none

/-- Dummy descriptor used as the default of list extraction. -/
def pdef : PlotNode where
  target_id := ""
  div_id := ""
  code := ""
  setupcode := ""
  relpath := ""
  rst_source := ""
  rst_lineno := 0
  alt := none

/-- Parse prefix used by the C1 witness: two setup blocks of document
`doc` with one of another document in between. -/
def pre0 : List Event :=
  [Event.setupEv "doc" 1 ["x = 5"],
   Event.setupEv "other" 2 ["y = 1"],
   Event.setupEv "doc" 4 ["z = 2"]]

/-- Build in which a setup block of the same document follows the plot
block: parsed after the plot directive runs, registered before any render. -/
def evs00 : List Event :=
  [Event.plotEv "doc" opts00 ["chart(x)"] "index.rst" 3,
   Event.setupEv "doc" 5 ["x = 5"]]

/-- Build with two plot blocks in different documents and source files. -/
def evs5 : List Event :=
  [Event.plotEv "doc" opts00 ["chart(x)"] "index.rst" 3,
   Event.plotEv "doc2" opts00 ["chart(y)"] "other.rst" 8]

/-- Registry entry of document `a`. -/
def entryA : SetupEntry where
  docname := "a"
  lineno := 1
  code := "x = 1"
  target := Node.target "" ["altair-plot-0"]

/-- Registry entry of document `b`. -/
def entryB : SetupEntry where
  docname := "b"
  lineno := 2
  code := "y = 2"
  target := Node.target "" ["altair-plot-1"]

/-- Environment with registry entries of two documents. -/
def envW : BuildEnv where
  docname := "a"
  srcdir := "/src"
  serialno := 2
  altair_plot_setup := some [entryA, entryB]

/-- Numeric value of a decimal digit character. -/
def digit_val (c : Char) : Nat := c.toNat - 48

/-- Value of a decimal digit string, most significant digit first. -/
def chars_val (l : List Char) : Nat :=
  List.foldl (fun a c => 10 * a + digit_val c) 0 l

theorem digit_val_digitChar {d : Nat} (h : d < 10) :
    digit_val (Nat.digitChar d) = d := by
  revert h
  revert d
  decide

theorem digitChar_ne_dash (d : Nat) : Nat.digitChar d ≠ '-' := by
  rcases Nat.lt_or_ge d 16 with h | h
  · interval_cases d <;> decide
  · have h0 : d ≠ 0 := by omega
    have h1 : d ≠ 1 := by omega
    have h2 : d ≠ 2 := by omega
    have h3 : d ≠ 3 := by omega
    have h4 : d ≠ 4 := by omega
    have h5 : d ≠ 5 := by omega
    have h6 : d ≠ 6 := by omega
    have h7 : d ≠ 7 := by omega
    have h8 : d ≠ 8 := by omega
    have h9 : d ≠ 9 := by omega
    have h10 : d ≠ 10 := by omega
    have h11 : d ≠ 11 := by omega
    have h12 : d ≠ 12 := by omega
    have h13 : d ≠ 13 := by omega
    have h14 : d ≠ 14 := by omega
    have h15 : d ≠ 15 := by omega
    simp [Nat.digitChar, h0, h1, h2, h3, h4, h5, h6, h7, h8, h9, h10,
          h11, h12, h13, h14, h15]

theorem toDigitsCore_acc (b fuel : Nat) :
    ∀ (n : Nat) (acc : List Char),
      Nat.toDigitsCore b fuel n acc = Nat.toDigitsCore b fuel n [] ++ acc := by
  induction fuel with
  | zero => intro n acc; simp [Nat.toDigitsCore]
  | succ f ih =>
    intro n acc
    simp only [Nat.toDigitsCore]
    by_cases h : n / b = 0
    · simp [h]
    · simp only [h, if_false]
      rw [ih (n / b) (Nat.digitChar (n % b) :: acc),
          ih (n / b) [Nat.digitChar (n % b)]]
      simp

theorem toDigitsCore_fuel (b : Nat) (hb : 2 ≤ b) :
    ∀ (n f1 f2 : Nat), n < f1 → n < f2 →
      Nat.toDigitsCore b f1 n [] = Nat.toDigitsCore b f2 n [] := by
  intro n
  induction n using Nat.strong_induction_on with
  | _ n ih =>
    intro f1 f2 h1 h2
    match f1, f2 with
    | g1 + 1, g2 + 1 =>
      simp only [Nat.toDigitsCore]
      by_cases h : n / b = 0
      · simp [h]
      · simp only [h, if_false]
        have hn : 0 < n := by
          rcases Nat.eq_zero_or_pos n with h0 | h0
          · subst h0; simp at h
          · exact h0
        have hdiv : n / b < n := Nat.div_lt_self hn (by omega)
        rw [toDigitsCore_acc b g1, toDigitsCore_acc b g2,
            ih (n / b) hdiv g1 g2 (by omega) (by omega)]

theorem chars_val_append_singleton (l : List Char) (c : Char) :
    chars_val (l ++ [c]) = 10 * chars_val l + digit_val c := by
  simp [chars_val, List.foldl_append]

theorem chars_val_toDigits (n : Nat) :
    chars_val (Nat.toDigits 10 n) = n := by
  induction n using Nat.strong_induction_on with
  | _ n ih =>
    unfold Nat.toDigits
    simp only [Nat.toDigitsCore]
    by_cases h : n / 10 = 0
    · have hn : n < 10 := by omega
      have h10 : n % 10 = n := Nat.mod_eq_of_lt hn
      simp [h, chars_val, h10, digit_val_digitChar hn]
    · have hn : 0 < n := by
        rcases Nat.eq_zero_or_pos n with h0 | h0
        · subst h0; simp at h
        · exact h0
      have hdiv : n / 10 < n := Nat.div_lt_self hn (by omega)
      simp only [h, if_false]
      rw [toDigitsCore_acc 10 n,
          toDigitsCore_fuel 10 (by omega) (n / 10) n (n / 10 + 1) hdiv
            (Nat.lt_succ_self _)]
      rw [chars_val_append_singleton]
      have hrec : chars_val (Nat.toDigits 10 (n / 10)) = n / 10 := ih (n / 10) hdiv
      unfold Nat.toDigits at hrec
      rw [hrec, digit_val_digitChar (Nat.mod_lt n (by omega))]
      omega

theorem repr_data_eq (n : Nat) : (Nat.repr n).data = Nat.toDigits 10 n := rfl

theorem Nat_repr_inj {m n : Nat} (h : Nat.repr m = Nat.repr n) : m = n := by
  have hd : Nat.toDigits 10 m = Nat.toDigits 10 n := by
    rw [← repr_data_eq, ← repr_data_eq, h]
  have := congrArg chars_val hd
  rwa [chars_val_toDigits, chars_val_toDigits] at this

theorem toDigitsCore_mem (b fuel : Nat) :
    ∀ (n : Nat) (acc : List Char) (c : Char),
      c ∈ Nat.toDigitsCore b fuel n acc →
      c ∈ acc ∨ ∃ m, c = Nat.digitChar m := by
  induction fuel with
  | zero => intro n acc c hc; exact Or.inl hc
  | succ f ih =>
    intro n acc c hc
    simp only [Nat.toDigitsCore] at hc
    by_cases h : n / b = 0
    · simp only [h, if_true] at hc
      rcases List.mem_cons.mp hc with h1 | h1
      · exact Or.inr ⟨n % b, h1⟩
      · exact Or.inl h1
    · simp only [h, if_false] at hc
      rcases ih (n / b) (Nat.digitChar (n % b) :: acc) c hc with h1 | h1
      · rcases List.mem_cons.mp h1 with h2 | h2
        · exact Or.inr ⟨n % b, h2⟩
        · exact Or.inl h2
      · exact Or.inr h1

theorem repr_mem_ne_dash {n : Nat} {c : Char} (h : c ∈ (Nat.repr n).data) :
    c ≠ '-' := by
  rw [repr_data_eq] at h
  unfold Nat.toDigits at h
  rcases toDigitsCore_mem 10 (n + 1) n [] c h with h1 | ⟨m, rfl⟩
  · simp at h1
  · exact digitChar_ne_dash m

theorem takeWhile_append_all {p : Char → Bool} :
    ∀ (l r : List Char), (∀ c ∈ l, p c = true) →
      (l ++ r).takeWhile p = l ++ r.takeWhile p := by
  intro l
  induction l with
  | nil => intro r h; simp
  | cons a t ih =>
    intro r h
    have ha : p a = true := h a (List.mem_cons_self a t)
    simp [List.takeWhile_cons, ha, ih r (fun c hc => h c (List.mem_cons_of_mem a hc))]

theorem mk_div_id_inj {b1 b2 : String} {n1 n2 : Nat}
    (h : mk_div_id b1 n1 = mk_div_id b2 n2) : n1 = n2 := by
  have hd : b1.data ++ "-altair-plot-".data ++ (Nat.repr n1).data
      = b2.data ++ "-altair-plot-".data ++ (Nat.repr n2).data := by
    have := congrArg String.data h
    simpa [mk_div_id, String.data_append] using this
  have hrev := congrArg List.reverse hd
  simp only [List.reverse_append] at hrev
  have hsep : "-altair-plot-".data.reverse = '-' :: "tolp-riatla-".data := by
    decide
  rw [hsep] at hrev
  have hleft : ∀ n : Nat, ∀ z : List Char,
      ((Nat.repr n).data.reverse ++ ('-' :: z)).takeWhile (fun c => c != '-')
        = (Nat.repr n).data.reverse := by
    intro n z
    rw [takeWhile_append_all]
    · simp [List.takeWhile_cons]
    · intro c hc
      have : c ≠ '-' := repr_mem_ne_dash (List.mem_reverse.mp hc)
      simpa using this
  have hr : (Nat.repr n1).data.reverse = (Nat.repr n2).data.reverse := by
    have h1 := congrArg (List.takeWhile (fun c => c != '-')) hrev
    simpa [List.append_assoc, hleft] using h1
  have hdata : (Nat.repr n1).data = (Nat.repr n2).data :=
    List.reverse_injective hr
  exact Nat_repr_inj (String.ext hdata)

/-- C3: the node sequence returned for a plot block is
[anchor][visualization][source echo] when `code-below` is set and
[anchor][source echo][visualization] when it is unset; with `hide-code`
set the source-echo node is absent from either ordering. -/
theorem plot_run_node_order (env : BuildEnv) (content : List String)
    (src : String) (lineno : Nat) (alt : Option String) :
    ∃ t v s,
      (AltairPlotDirective_run env ⟨false, true, alt⟩ content src lineno).2
        = [t, v, s] ∧
      (AltairPlotDirective_run env ⟨false, false, alt⟩ content src lineno).2
        = [t, s, v] ∧
      (AltairPlotDirective_run env ⟨true, true, alt⟩ content src lineno).2
        = [t, v] ∧
      (AltairPlotDirective_run env ⟨true, false, alt⟩ content src lineno).2
        = [t, v] ∧
      (∃ ids, t = Node.target "" ids) ∧
      (∃ p, v = Node.altair_plot p) ∧
      (∃ c lang, s = Node.literal_block c lang) :=
  ⟨_, _, _, rfl, rfl, rfl, rfl, ⟨_, rfl⟩, ⟨_, rfl⟩, ⟨_, _, rfl⟩⟩

/-- C9: under `hide-code`, the emitted node sequence is the same
[anchor][visualization] pair whether or not `code-below` is set. -/
theorem hide_code_makes_code_below_irrelevant (env : BuildEnv)
    (content : List String) (src : String) (lineno : Nat)
    (alt : Option String) :
    (AltairPlotDirective_run env ⟨true, true, alt⟩ content src lineno).2
      = (AltairPlotDirective_run env ⟨true, false, alt⟩ content src lineno).2 ∧
    ∃ ids p,
      (AltairPlotDirective_run env ⟨true, true, alt⟩ content src lineno).2
        = [Node.target "" ids, Node.altair_plot p] :=
  ⟨rfl, _, _, rfl⟩

/-- C10: the setup directive returns exactly one node, an empty target
(anchor) node, so the setup code is never echoed into the document. -/
theorem setup_run_single_target (env : BuildEnv) (lineno : Nat)
    (content : List String) :
    (AltairPlotSetupDirective_run env lineno content).2
      = [Node.target "" ["altair-plot-" ++ Nat.repr env.serialno]] ∧
    ∀ text lang,
      Node.literal_block text lang ∉
        (AltairPlotSetupDirective_run env lineno content).2 := by
  refine ⟨rfl, ?_⟩
  intro text lang h
  simp [AltairPlotSetupDirective_run] at h

/-- C7: the fallback renderer appends the placeholder `[ graph: alt ]` when
alt text is present and `[ graph ]` otherwise, raises `SkipNode`, does not
depend on the setup or plot code, and writes no file. -/
theorem generic_visit_placeholder (st : BuilderState) (node : PlotNode) :
    (node.alt = none →
      generic_visit_altair_plot st node
        = ({ st with body := st.body ++ ["[ graph ]"] }, VisitSignal.skipNode)) ∧
    (∀ a, node.alt = some a →
      generic_visit_altair_plot st node
        = ({ st with body := st.body ++ ["[ graph: " ++ a ++ " ]"] },
           VisitSignal.skipNode)) ∧
    (∀ code2 setup2,
      generic_visit_altair_plot st { node with code := code2, setupcode := setup2 }
        = generic_visit_altair_plot st node) ∧
    (generic_visit_altair_plot st node).1.files = st.files := by
  refine ⟨?_, ?_, ?_, ?_⟩
  · intro h
    simp [generic_visit_altair_plot, h]
  · intro a h
    simp [generic_visit_altair_plot, h]
  · intro code2 setup2
    simp [generic_visit_altair_plot]
  · cases h : node.alt <;> simp [generic_visit_altair_plot, h]

/-- Witness for C7 at a concrete state and descriptors with and without
alt text. -/
theorem generic_visit_placeholder_witness :
    generic_visit_altair_plot stA node0
      = ({ stA with body := stA.body ++ ["[ graph ]"] }, VisitSignal.skipNode) ∧
    generic_visit_altair_plot stA node_alt
      = ({ stA with body := stA.body ++ ["[ graph: desc ]"] },
         VisitSignal.skipNode) :=
  ⟨(generic_visit_placeholder stA node0).1 rfl,
   (generic_visit_placeholder stA node_alt).2.1 "desc" rfl⟩

/-- C4: purging document `d` removes exactly the registry entries owned by
`d`, keeps every other entry in order, changes nothing else in the
environment, and silently tolerates an absent registry. -/
theorem purge_removes_exactly_doc (env : BuildEnv) (d : String) :
    (env.altair_plot_setup = none → purge_altair_plot_setup env d = env) ∧
    (∀ items, env.altair_plot_setup = some items →
      ∃ kept,
        purge_altair_plot_setup env d
          = { env with altair_plot_setup := some kept } ∧
        List.Sublist kept items ∧
        ∀ e, e ∈ kept ↔ e ∈ items ∧ e.docname ≠ d) := by
  constructor
  · intro h
    simp [purge_altair_plot_setup, h]
  · intro items h
    refine ⟨items.filter (fun item => item.docname ≠ d), ?_,
            List.filter_sublist _, ?_⟩
    · simp [purge_altair_plot_setup, h]
    · intro e
      simp [List.mem_filter]

/-- Witness for C4: purging document `a` from a registry holding entries of
documents `a` and `b` keeps exactly the entry of `b`. -/
theorem purge_removes_exactly_doc_witness :
    (∃ kept,
      purge_altair_plot_setup envW "a"
        = { envW with altair_plot_setup := some kept } ∧
      List.Sublist kept [entryA, entryB] ∧
      ∀ e, e ∈ kept ↔ e ∈ [entryA, entryB] ∧ e.docname ≠ "a") ∧
    purge_altair_plot_setup { envW with altair_plot_setup := none } "a"
      = { envW with altair_plot_setup := none } :=
  ⟨(purge_removes_exactly_doc envW "a").2 [entryA, entryB] rfl,
   (purge_removes_exactly_doc { envW with altair_plot_setup := none } "a").1 rfl⟩

theorem file_content_append_self (files : List (String × String))
    (p c : String) : file_content (files ++ [(p, c)]) p = some c := by
  simp [file_content, List.filter_append]

theorem html_visit_ok_shape (I : PyExec) (outdir : String)
    (st : BuilderState) (node : PlotNode) (ctx1 : I.Ctx) (chart : I.PyValue)
    (S : JValue)
    (h1 : setup_result I node = Except.ok ctx1)
    (h2 : I.exec_then_eval node.code ctx1 = Except.ok chart)
    (h3 : I.to_dict chart = Except.ok S) :
    html_visit_altair_plot I outdir st node = Except.ok
      ({ body := st.body
            ++ [vgl_render node.div_id (node.div_id ++ ".vl.json")],
         files := st.files
            ++ [(os_path_join (os_path_join outdir node.relpath)
                   (node.div_id ++ ".vl.json"),
                 dumps (embed_envelope S))] },
       VisitSignal.skipNode) := by
  rw [html_visit_altair_plot]
  rw [h1]
  simp [Bind.bind, Except.bind, h2, h3, pure, Except.pure]

theorem html_visit_setup_error (I : PyExec) (outdir : String)
    (st : BuilderState) (node : PlotNode) (e : String)
    (h1 : setup_result I node = Except.error e) :
    html_visit_altair_plot I outdir st node = Except.error e := by
  rw [html_visit_altair_plot]
  rw [h1]
  rfl

theorem html_visit_eval_error (I : PyExec) (outdir : String)
    (st : BuilderState) (node : PlotNode) (ctx1 : I.Ctx) (e : String)
    (h1 : setup_result I node = Except.ok ctx1)
    (h2 : I.exec_then_eval node.code ctx1 = Except.error e) :
    html_visit_altair_plot I outdir st node = Except.error e := by
  rw [html_visit_altair_plot]
  rw [h1]
  simp [Bind.bind, Except.bind, h2]

theorem html_visit_todict_error (I : PyExec) (outdir : String)
    (st : BuilderState) (node : PlotNode) (ctx1 : I.Ctx)
    (chart : I.PyValue) (e : String)
    (h1 : setup_result I node = Except.ok ctx1)
    (h2 : I.exec_then_eval node.code ctx1 = Except.ok chart)
    (h3 : I.to_dict chart = Except.error e) :
    html_visit_altair_plot I outdir st node = Except.error e := by
  rw [html_visit_altair_plot]
  rw [h1]
  simp [Bind.bind, Except.bind, h2, h3]

/-- C2: when the setup and plot code execute successfully and the chart
converts to the spec `S`, the HTML visitor succeeds and the file at
`<outdir>/<relpath>/<div_id>.vl.json` (overwriting any earlier write to
that path) holds exactly the serialised envelope
`\x7b"mode": "vega-lite", "actions": \x7b"editor": true, "source": false,
"export": true\x7d, "spec": S\x7d`. -/
theorem html_visit_writes_artifact (I : PyExec) (outdir : String)
    (st : BuilderState) (node : PlotNode) (ctx1 : I.Ctx) (chart : I.PyValue)
    (S : JValue)
    (h1 : setup_result I node = Except.ok ctx1)
    (h2 : I.exec_then_eval node.code ctx1 = Except.ok chart)
    (h3 : I.to_dict chart = Except.ok S) :
    ∃ st2,
      html_visit_altair_plot I outdir st node
        = Except.ok (st2, VisitSignal.skipNode) ∧
      file_content st2.files
          (os_path_join (os_path_join outdir node.relpath)
            (node.div_id ++ ".vl.json"))
        = some (dumps (JValue.obj
            [("mode", JValue.str "vega-lite"),
             ("actions", JValue.obj
               [("editor", JValue.bool true),
                ("source", JValue.bool false),
                ("export", JValue.bool true)]),
             ("spec", S)])) := by
  refine ⟨_, html_visit_ok_shape I outdir st node ctx1 chart S h1 h2 h3, ?_⟩
  exact file_content_append_self _ _ _

/-- Witness for C2: setup `x = 5`, plot `chart(x)`, spec-conversion result
`\x7b"data": 5\x7d`, written under `out`. -/
theorem html_visit_writes_artifact_witness :
    ∃ st2,
      html_visit_altair_plot exec0 "out" stA node0
        = Except.ok (st2, VisitSignal.skipNode) ∧
      file_content st2.files
          (os_path_join (os_path_join "out" node0.relpath)
            (node0.div_id ++ ".vl.json"))
        = some (dumps (JValue.obj
            [("mode", JValue.str "vega-lite"),
             ("actions", JValue.obj
               [("editor", JValue.bool true),
                ("source", JValue.bool false),
                ("export", JValue.bool true)]),
             ("spec", JValue.obj [("data", JValue.num 5)])])) :=
  html_visit_writes_artifact exec0 "out" stA node0
    (([("x", (5 : Int))] : List (String × Int)) : exec0.Ctx)
    (((5 : Int) : exec0.PyValue))
    (JValue.obj [("data", JValue.num 5)]) rfl rfl rfl

/-- C6: rendering a descriptor starts from a fresh evaluation context, so
its outcome is independent of the builder state: it fails identically from
any two prior states, and on success it appends the same single markup
fragment and writes the same single (path, content) artifact. -/
theorem html_visit_state_independent (I : PyExec) (outdir : String)
    (node : PlotNode) (st1 st2 : BuilderState) :
    (∀ e, html_visit_altair_plot I outdir st1 node = Except.error e ↔
          html_visit_altair_plot I outdir st2 node = Except.error e) ∧
    (∀ r1 r2,
      html_visit_altair_plot I outdir st1 node = Except.ok r1 →
      html_visit_altair_plot I outdir st2 node = Except.ok r2 →
      ∃ h pc,
        r1.1.body = st1.body ++ [h] ∧ r2.1.body = st2.body ++ [h] ∧
        r1.1.files = st1.files ++ [pc] ∧ r2.1.files = st2.files ++ [pc] ∧
        r1.2 = r2.2) := by
  cases hc1 : setup_result I node with
  | error e1 =>
    constructor
    · intro e
      rw [html_visit_setup_error I outdir st1 node e1 hc1,
          html_visit_setup_error I outdir st2 node e1 hc1]
    · intro r1 r2 h1 h2
      rw [html_visit_setup_error I outdir st1 node e1 hc1] at h1
      exact absurd h1 (by simp)
  | ok ctx1 =>
    cases hc2 : I.exec_then_eval node.code ctx1 with
    | error e2 =>
      constructor
      · intro e
        rw [html_visit_eval_error I outdir st1 node ctx1 e2 hc1 hc2,
            html_visit_eval_error I outdir st2 node ctx1 e2 hc1 hc2]
      · intro r1 r2 h1 h2
        rw [html_visit_eval_error I outdir st1 node ctx1 e2 hc1 hc2] at h1
        exact absurd h1 (by simp)
    | ok chart =>
      cases hc3 : I.to_dict chart with
      | error e3 =>
        constructor
        · intro e
          rw [html_visit_todict_error I outdir st1 node ctx1 chart e3 hc1 hc2 hc3,
              html_visit_todict_error I outdir st2 node ctx1 chart e3 hc1 hc2 hc3]
        · intro r1 r2 h1 h2
          rw [html_visit_todict_error I outdir st1 node ctx1 chart e3
                hc1 hc2 hc3] at h1
          exact absurd h1 (by simp)
      | ok S =>
        constructor
        · intro e
          rw [html_visit_ok_shape I outdir st1 node ctx1 chart S hc1 hc2 hc3,
              html_visit_ok_shape I outdir st2 node ctx1 chart S hc1 hc2 hc3]
          simp
        · intro r1 r2 h1 h2
          rw [html_visit_ok_shape I outdir st1 node ctx1 chart S hc1 hc2 hc3]
            at h1
          rw [html_visit_ok_shape I outdir st2 node ctx1 chart S hc1 hc2 hc3]
            at h2
          cases h1
          cases h2
          exact ⟨_, _, rfl, rfl, rfl, rfl, rfl⟩

/-- Witness for C6: the same descriptor rendered from the empty builder
state and from a state with earlier output appends identical markup and
writes the identical artifact. -/
theorem html_visit_state_independent_witness :
    ∃ r1 r2,
      html_visit_altair_plot exec0 "out" stA node0 = Except.ok r1 ∧
      html_visit_altair_plot exec0 "out" stB node0 = Except.ok r2 ∧
      ∃ h pc,
        r1.1.body = stA.body ++ [h] ∧ r2.1.body = stB.body ++ [h] ∧
        r1.1.files = stA.files ++ [pc] ∧ r2.1.files = stB.files ++ [pc] ∧
        r1.2 = r2.2 := by
  refine ⟨_, _, rfl, rfl, ?_⟩
  exact (html_visit_state_independent exec0 "out" node0 stA stB).2 _ _ rfl rfl

/-- C8: an error raised while executing the setup code or the plot code, or
by the spec conversion, is not caught by the HTML visitor: the visitor
propagates exactly that error and produces no state (nothing is appended
and nothing is written). -/
theorem html_visit_propagates_errors (I : PyExec) (outdir : String)
    (st : BuilderState) (node : PlotNode) :
    (∀ e, setup_result I node = Except.error e →
      html_visit_altair_plot I outdir st node = Except.error e) ∧
    (∀ ctx1 e,
      setup_result I node = Except.ok ctx1 →
      I.exec_then_eval node.code ctx1 = Except.error e →
      html_visit_altair_plot I outdir st node = Except.error e) ∧
    (∀ ctx1 chart e,
      setup_result I node = Except.ok ctx1 →
      I.exec_then_eval node.code ctx1 = Except.ok chart →
      I.to_dict chart = Except.error e →
      html_visit_altair_plot I outdir st node = Except.error e) :=
  ⟨fun e h1 => html_visit_setup_error I outdir st node e h1,
   fun ctx1 e h1 h2 => html_visit_eval_error I outdir st node ctx1 e h1 h2,
   fun ctx1 chart e h1 h2 h3 =>
     html_visit_todict_error I outdir st node ctx1 chart e h1 h2 h3⟩

/-- Witness for C8: a raising setup, a raising plot evaluation, and a chart
without spec conversion each abort the visitor with exactly their error. -/
theorem html_visit_propagates_errors_witness :
    html_visit_altair_plot exec_setup_raises "out" stA node0
      = Except.error "boom-setup" ∧
    html_visit_altair_plot exec_eval_raises "out" stA node0
      = Except.error "boom-eval" ∧
    html_visit_altair_plot exec_todict_raises "out" stA node0
      = Except.error "boom-todict" :=
  ⟨(html_visit_propagates_errors exec_setup_raises "out" stA node0).1
      "boom-setup" rfl,
   (html_visit_propagates_errors exec_eval_raises "out" stA node0).2.1
      () "boom-eval" rfl rfl,
   (html_visit_propagates_errors exec_todict_raises "out" stA node0).2.2
      () () "boom-todict" rfl rfl rfl⟩

theorem mem_plot_run {env : BuildEnv} {opts : PlotOptions}
    {content : List String} {src : String} {lineno : Nat} {p : PlotNode}
    (hp : Node.altair_plot p
      ∈ (AltairPlotDirective_run env opts content src lineno).2) :
    p.setupcode = String.intercalate "\n" (registry_codes env.docname env) ∧
    p.div_id = mk_div_id ((os_path_basename src).replace "." "-") env.serialno ∧
    p.rst_source = src := by
  obtain ⟨hc, cb, alt⟩ := opts
  cases hc <;> cases cb <;>
    simp [AltairPlotDirective_run, registry_codes, new_serialno] at hp <;>
    subst hp <;> exact ⟨rfl, rfl, rfl⟩

theorem registry_codes_run_event_setup (env : BuildEnv) (d d2 : String)
    (l : Nat) (c : List String) :
    registry_codes d (run_event env (Event.setupEv d2 l c)).1
      = registry_codes d env
        ++ (if d2 = d then [String.intercalate "\n" c] else []) := by
  by_cases h : d2 = d <;>
    simp [run_event, AltairPlotSetupDirective_run, registry_codes,
          new_serialno, List.filter_append, h]

theorem registry_codes_run_event_plot (env : BuildEnv) (d d2 : String)
    (o : PlotOptions) (c : List String) (src : String) (l : Nat) :
    registry_codes d (run_event env (Event.plotEv d2 o c src l)).1
      = registry_codes d env := rfl

theorem registry_codes_run_build (d : String) :
    ∀ (evs : List Event) (env : BuildEnv),
      registry_codes d (run_build env evs).1
        = registry_codes d env ++ setup_codes_for d evs := by
  intro evs
  induction evs with
  | nil => intro env; simp [run_build, setup_codes_for]
  | cons e evs ih =>
    intro env
    have hstep : (run_build env (e :: evs)).1
        = (run_build (run_event env e).1 evs).1 := rfl
    rw [hstep, ih]
    cases e with
    | setupEv d2 l c =>
      rw [registry_codes_run_event_setup]
      by_cases h : d2 = d <;> simp [setup_codes_for, h]
    | plotEv d2 o c src l =>
      rw [registry_codes_run_event_plot]
      simp [setup_codes_for]

/-- C1 is false as stated: in a build whose parse phase registers a setup
entry of the same document after the plot block, the descriptor's setup
code (captured when the plot directive runs) misses that entry, although
it was registered before any render (the whole parse phase precedes the
render phase). -/
theorem plot_setupcode_counterexample :
    (plot_nodes (run_build env00 evs00).2).map (fun p => p.setupcode)
      = [""] ∧
    spec_setup_concat "doc" evs00 = "x = 5" ∧
    ("" : String) ≠ "x = 5" :=
  ⟨rfl, rfl, by decide⟩

/-- C1 (amended): in a fresh build, the setup-code field of the descriptor
produced by a plot directive equals the ordered concatenation (in
registration order, with no deduplication) of all Setup Entries registered
for the same document before the plot block's own directive run, and
contains no entry of any other document. -/
theorem plot_setupcode_is_prior_registrations (pre : List Event)
    (env0 : BuildEnv)
    (h0 : env0.altair_plot_setup = none ∨ env0.altair_plot_setup = some [])
    (d : String) (opts : PlotOptions) (content : List String) (src : String)
    (lineno : Nat) (p : PlotNode)
    (hp : Node.altair_plot p ∈
      (AltairPlotDirective_run { (run_build env0 pre).1 with docname := d }
        opts content src lineno).2) :
    p.setupcode = spec_setup_concat d pre := by
  have h1 := (mem_plot_run hp).1
  rw [h1]
  show String.intercalate "\n"
    (registry_codes d { (run_build env0 pre).1 with docname := d }) = _
  have h2 : registry_codes d { (run_build env0 pre).1 with docname := d }
      = registry_codes d (run_build env0 pre).1 := rfl
  have h4 : registry_codes d env0 = [] := by
    rcases h0 with h | h <;> simp [registry_codes, h]
  rw [h2, registry_codes_run_build d pre env0, h4]
  simp [spec_setup_concat]

/-- Witness for the amended C1: after registering `x = 5` and `z = 2` for
document `doc` with an entry of another document in between, the next plot
block of `doc` sees exactly `x = 5\nz = 2`. -/
theorem plot_setupcode_is_prior_registrations_witness :
    ((plot_nodes (AltairPlotDirective_run
        { (run_build env00 pre0).1 with docname := "doc" } opts00
        ["chart(x)"] "a.rst" 7).2).getLastD pdef).setupcode
      = spec_setup_concat "doc" pre0 ∧
    spec_setup_concat "doc" pre0 = "x = 5\nz = 2" :=
  ⟨plot_setupcode_is_prior_registrations pre0 env00 (Or.inl rfl) "doc"
      opts00 ["chart(x)"] "a.rst" 7 _
      (by simp [AltairPlotDirective_run, plot_nodes, opts00]),
   rfl⟩

theorem run_event_serialno (env : BuildEnv) (e : Event) :
    (run_event env e).1.serialno = env.serialno + 1 := by
  cases e <;> rfl

theorem plot_nodes_append (l1 l2 : List Node) :
    plot_nodes (l1 ++ l2) = plot_nodes l1 ++ plot_nodes l2 := by
  simp [plot_nodes]

theorem plot_nodes_run_event (env : BuildEnv) (e : Event) :
    plot_nodes (run_event env e).2 = [] ∨
    ∃ p, plot_nodes (run_event env e).2 = [p] ∧
      p.div_id = mk_div_id ((os_path_basename p.rst_source).replace "." "-")
          env.serialno := by
  cases e with
  | setupEv d l c => exact Or.inl rfl
  | plotEv d o c src l =>
    obtain ⟨hc, cb, alt⟩ := o
    cases hc <;> cases cb <;> exact Or.inr ⟨_, rfl, rfl⟩

theorem plot_nodes_run_build_ge (evs : List Event) :
    ∀ (env : BuildEnv) (p : PlotNode),
      p ∈ plot_nodes (run_build env evs).2 →
      ∃ n, p.div_id
          = mk_div_id ((os_path_basename p.rst_source).replace "." "-") n ∧
        env.serialno ≤ n := by
  induction evs with
  | nil => intro env p hp; simp [run_build, plot_nodes] at hp
  | cons e evs ih =>
    intro env p hp
    have hstep : (run_build env (e :: evs)).2
        = (run_event env e).2 ++ (run_build (run_event env e).1 evs).2 := rfl
    rw [hstep, plot_nodes_append] at hp
    rcases List.mem_append.mp hp with h | h
    · rcases plot_nodes_run_event env e with he | ⟨q, hq, hdiv⟩
      · rw [he] at h; simp at h
      · rw [hq] at h
        simp at h
        subst h
        exact ⟨env.serialno, hdiv, Nat.le_refl _⟩
    · obtain ⟨n, hn, hge⟩ := ih (run_event env e).1 p h
      refine ⟨n, hn, ?_⟩
      rw [run_event_serialno] at hge
      omega

/-- C5: the container ids of any two distinct plot blocks of one build are
distinct (across source files too), and each is derived from the
originating file name and the build's sequence counter. -/
theorem plot_container_ids_distinct (env : BuildEnv) (evs : List Event) :
    ((plot_nodes (run_build env evs).2).map (fun p => p.div_id)).Nodup ∧
    ∀ p ∈ plot_nodes (run_build env evs).2,
      ∃ n, p.div_id
        = mk_div_id ((os_path_basename p.rst_source).replace "." "-") n := by
  constructor
  · induction evs generalizing env with
    | nil => simp [run_build, plot_nodes]
    | cons e evs ih =>
      have hstep : (run_build env (e :: evs)).2
          = (run_event env e).2 ++ (run_build (run_event env e).1 evs).2 := rfl
      rw [hstep, plot_nodes_append, List.map_append, List.nodup_append]
      refine ⟨?_, ih (run_event env e).1, ?_⟩
      · rcases plot_nodes_run_event env e with he | ⟨q, hq, _⟩
        · simp [he]
        · simp [hq]
      · intro a ha1 ha2
        rcases plot_nodes_run_event env e with he | ⟨q, hq, hdiv⟩
        · rw [he] at ha1; simp at ha1
        · rw [hq] at ha1
          simp at ha1
          rcases List.mem_map.mp ha2 with ⟨p, hp, hpa⟩
          obtain ⟨n, hn, hge⟩ :=
            plot_nodes_run_build_ge evs (run_event env e).1 p hp
          rw [run_event_serialno] at hge
          have hqp : q.div_id = p.div_id := by rw [← ha1, hpa]
          have hmk : mk_div_id ((os_path_basename q.rst_source).replace "." "-")
              env.serialno
              = mk_div_id ((os_path_basename p.rst_source).replace "." "-") n := by
            rw [← hdiv, ← hn]
            exact hqp
          have := mk_div_id_inj hmk
          omega
  · intro p hp
    obtain ⟨n, hn, _⟩ := plot_nodes_run_build_ge evs env p hp
    exact ⟨n, hn⟩

/-- Witness for C5 on a concrete build of two plot blocks in two source
files: the container ids are pairwise distinct and the last block's id is
derived from its file name and a sequence number. -/
theorem plot_container_ids_distinct_witness :
    ((plot_nodes (run_build env00 evs5).2).map (fun p => p.div_id)).Nodup ∧
    ∃ n, ((plot_nodes (run_build env00 evs5).2).getLastD pdef).div_id
      = mk_div_id
          ((os_path_basename
            ((plot_nodes (run_build env00 evs5).2).getLastD pdef).rst_source).replace
              "." "-") n :=
  ⟨(plot_container_ids_distinct env00 evs5).1,
   (plot_container_ids_distinct env00 evs5).2 _
     (by simp [run_build, run_event, AltairPlotDirective_run, plot_nodes,
               opts00, evs5])⟩

/-- Witness for C10 at a concrete setup block: one empty target node is
returned and the setup code is not echoed as a literal block. -/
theorem setup_run_single_target_witness :
    (AltairPlotSetupDirective_run env00 1 ["x = 5"]).2
      = [Node.target "" ["altair-plot-" ++ Nat.repr 0]] ∧
    Node.literal_block "x = 5" "python"
      ∉ (AltairPlotSetupDirective_run env00 1 ["x = 5"]).2 :=
  ⟨(setup_run_single_target env00 1 ["x = 5"]).1,
   (setup_run_single_target env00 1 ["x = 5"]).2 "x = 5" "python"⟩

end AltairPlot
